import Mathlib

/-!
Verification of the retrieval core of the nuget_recommender repository
(file nuget_api.py), as a shallow embedding in Lean 4.

Modelling conventions:
- Python exceptions become the inductive type `Exc`; the isinstance checks
  of the source become boolean predicates on `Exc`.  In the aiohttp library
  the class ClientResponseError is a subclass of ClientError, and this
  subclass fact is reflected in `isClientError`.
- Fallible Python code becomes functions returning `Except` (or an explicit
  error component); raising an exception is returning the error.
- Awaited network calls become explicit oracle functions passed as
  arguments; the list of URLs (or sub-loads) requested is returned as an
  explicit trace so that ordering and multiplicity of requests is provable.
- Mutable object state becomes explicit state records passed and returned.
-/

/-- Exception values relevant to nuget_api.py.  `clientResponseError` is an
aiohttp ClientResponseError carrying its HTTP status code; it is also a
ClientError by subclassing.  `clientConnectionError` stands for any other
aiohttp ClientError (generic connectivity failure, e.g. name resolution).
`otherError` stands for any exception outside those classes, e.g. a
malformed-body JSON decoding error. -/
inductive Exc
  | cancelledError
  | timeoutError
  | clientResponseError (code : Nat)
  | clientConnectionError
  | otherError
deriving DecidableEq

/-- isinstance(exc, (CancelledError, asyncio.TimeoutError)) -/
def isCancelledOrTimeout : Exc → Bool
  | Exc.cancelledError => true
  | Exc.timeoutError => true
  | _ => false

/-- isinstance(exc, ClientResponseError) -/
def isClientResponseError : Exc → Bool
  | Exc.clientResponseError _ => true
  | _ => false

/-- isinstance(exc, ClientError): true for ClientResponseError (a subclass)
and for generic connectivity ClientErrors. -/
def isClientError : Exc → Bool
  | Exc.clientResponseError _ => true
  | Exc.clientConnectionError => true
  | _ => false

/-- The .code attribute of a ClientResponseError. -/
def excCode : Exc → Nat
  | Exc.clientResponseError code => code
  | _ => 0

/-- type(exc).__name__, used in the low-severity log message. -/
def excName : Exc → String
  | Exc.cancelledError => "CancelledError"
  | Exc.timeoutError => "TimeoutError"
  | Exc.clientResponseError _ => "ClientResponseError"
  | Exc.clientConnectionError => "ClientError"
  | Exc.otherError => "Exception"

/-- nuget_api.ok_filter: the retryable-failure predicate handed to the
RetryClient transport. -/
def ok_filter (exc : Exc) : Bool :=
  if isCancelledOrTimeout exc then true
  else if isClientResponseError exc && decide (500 ≤ excCode exc) then true
  else false

/-- nuget_api.can_ignore_exception: retryable, or any aiohttp ClientError. -/
def can_ignore_exception (exc : Exc) : Bool :=
  ok_filter exc || isClientError exc

/-- Follows the words of the spec: a failure is retryable if it is a
cancellation or timeout, or an HTTP response error with status at least
500.  Written for comparison with `ok_filter`, which is translated from
the source. -/
def retryablePerSpec (e : Exc) : Prop :=
  e = Exc.cancelledError ∨ e = Exc.timeoutError ∨
    ∃ c, 500 ≤ c ∧ e = Exc.clientResponseError c

/-- Follows the words of the spec (with the claim reading of generic
connectivity (client) error as the ClientError class): ignorable means
retryable or a client error.  Written for comparison with
`can_ignore_exception`, which is translated from the source. -/
def ignorablePerSpec (e : Exc) : Prop :=
  retryablePerSpec e ∨ isClientError e = true

/-- Endpoint symbol DEV. -/
def DEV : String := "DEV"

/-- Endpoint symbol INT. -/
def INT : String := "INT"

/-- Endpoint symbol PROD. -/
def PROD : String := "PROD"

/-- nuget_api.VALID_ENDPOINTS -/
def VALID_ENDPOINTS : List String := [DEV, INT, PROD]

/-- nuget_api.DEV_INDEX -/
def DEV_INDEX : String := "https://apidev.nugettest.org/v3/index.json"

/-- nuget_api.INT_INDEX -/
def INT_INDEX : String := "https://apiint.nugettest.org/v3/index.json"

/-- nuget_api.PROD_INDEX -/
def PROD_INDEX : String := "https://api.nuget.org/v3/index.json"

/-- The ValueError raised by check_endpoint for a name outside
VALID_ENDPOINTS. -/
inductive EndpointError
  | invalidEndpoint (endpoint : String)
deriving DecidableEq

/-- nuget_api.check_endpoint: raises for a name outside VALID_ENDPOINTS,
otherwise returns the name.  Pure: no oracle argument, hence no network
access. -/
def check_endpoint (endpoint : String) : Except EndpointError String :=
  if endpoint ∈ VALID_ENDPOINTS then Except.ok endpoint
  else Except.error (EndpointError.invalidEndpoint endpoint)

/-- nuget_api.get_endpoint_url: check_endpoint, then the hard-coded URL
(the source asserts endpoint == PROD on the final branch, which holds
whenever check_endpoint succeeded).  Pure: no oracle argument, hence no
network access. -/
def get_endpoint_url (endpoint : String) : Except EndpointError String :=
  match check_endpoint endpoint with
  | Except.error e => Except.error e
  | Except.ok _ =>
    if endpoint = DEV then Except.ok DEV_INDEX
    else if endpoint = INT then Except.ok INT_INDEX
    else Except.ok PROD_INDEX

/-- One search hit: nuget_api.PackageSearchInfo built from a node of the
data array of a search response. -/
structure PackageSearchInfo where
  id : String
  total_downloads : Int
  verified : Bool
deriving DecidableEq

/-- nuget_api.NULL_SEARCH_INFO, the NullPackageSearchInfo sentinel (same
observable fields as PackageSearchInfo). -/
def NULL_SEARCH_INFO : PackageSearchInfo :=
  { id := "", total_downloads := -1, verified := false }

/-- Python str.lower, modelled as ASCII lowering of the character list
(the mapping of Char.toLower), written structurally so that it evaluates
by kernel reduction. -/
def pyLower (s : String) : String := String.mk (s.data.map Char.toLower)

/-- The lookup on line 203 of nuget_api.py: first hit whose lower-cased id
equals the lower-cased package id, defaulting to NULL_SEARCH_INFO. -/
def findSearchInfo (pkgId : String) (results : List PackageSearchInfo) :
    PackageSearchInfo :=
  match results.find? (fun d => pyLower d.id == pyLower pkgId) with
  | some d => d
  | none => NULL_SEARCH_INFO

/-- A package stub node of a catalog page: keys nuget:id, nuget:version
and @id (the catalog entry URL). -/
structure PackageStubNode where
  nugetId : String
  nugetVersion : String
  atId : String
deriving DecidableEq

/-- A catalog page document: its items array of package stubs. -/
structure CatalogPageJson where
  items : List PackageStubNode
deriving DecidableEq

/-- A node of the catalog root items array: its @id is a page URL. -/
structure CatalogRootNode where
  atId : String
deriving DecidableEq

/-- The catalog root document: its items array of page URL nodes. -/
structure CatalogRootJson where
  items : List CatalogRootNode
deriving DecidableEq

/-- The numeric value of a digit sequence, as int() of the matched
group. -/
def digitsVal (l : List Char) : Nat :=
  l.foldl (fun acc c => acc * 10 + (c.toNat - 48)) 0

/-- The pattern search of NugetPage.__init__ (re.search of
page([0-9]+)\.json anchored at the end): the URL must end in
page<digits>.json with a nonempty maximal digit run; the digits give the
page number.  Returns none when re.search finds no match, in which case
the constructor raises (match.group on None).  Written over the
character list so that it evaluates by kernel reduction. -/
def parse_pageno (url : String) : Option Nat :=
  let cs := url.data
  if (".json".data).isSuffixOf cs then
    let stem := cs.take (cs.length - 5)
    let digits := (stem.reverse.takeWhile Char.isDigit).reverse
    if digits.isEmpty then none
    else if ("page".data).isSuffixOf (stem.take (stem.length - digits.length)) then
      some (digitsVal digits)
    else none
  else none

/-- nuget_api.NugetPage after construction (pageno parsed from the URL)
and an optional loaded body (None until load ran). -/
structure NugetPage where
  pageno : Nat
  url : String
  json : Option CatalogPageJson
deriving DecidableEq

/-- The AttributeError raised when the page URL does not match the
pattern (match.group called on None). -/
inductive PageErr
  | attributeError
deriving DecidableEq

/-- The page_urls list built on line 101 of nuget_api.py from the catalog
root document. -/
def page_urls (catalog_json : CatalogRootJson) : List String :=
  catalog_json.items.map (fun node => node.atId)

/-- The generator body of NugetCatalogClient.load_pages, run until k
elements have been consumed (or the URL list is exhausted, or a
constructor raised).  For each consumed element the generator constructs
a NugetPage (parsing its page number; a parse failure raises before any
fetch of that page) and then awaits its load, which performs the fetch.
Returns the consumed pages (or the raised error) together with the trace
of URLs fetched, in request order. -/
def load_pages_from (fetch : String → CatalogPageJson) :
    List String → Nat → Except PageErr (List NugetPage) × List String
  | _, 0 => (Except.ok [], [])
  | [], _ + 1 => (Except.ok [], [])
  | url :: rest, k + 1 =>
    match parse_pageno url with
    | none => (Except.error PageErr.attributeError, [])
    | some n =>
      let page : NugetPage := { pageno := n, url := url, json := some (fetch url) }
      let r := load_pages_from fetch rest k
      (match r.1 with
       | Except.ok ps => Except.ok (page :: ps)
       | Except.error e => Except.error e,
       url :: r.2)

/-- NugetCatalogClient.load_pages on a loaded catalog root document,
consumed up to k elements. -/
def NugetCatalogClient.load_pages (fetch : String → CatalogPageJson)
    (catalog_json : CatalogRootJson) (k : Nat) :
    Except PageErr (List NugetPage) × List String :=
  load_pages_from fetch (page_urls catalog_json) k

/-- The catalogEntry JSON of a registration leaf node as read by
RegistrationLeaf.__init__; keys read with .get are Option, keys read by
subscript are plain fields. -/
structure RegLeafJson where
  authors : Option (List String)
  description : Option String
  iconUrl : Option String
  id : String
  licenseUrl : Option String
  listed : Option Bool
  project_url : Option String
  published : Option String
  summary : Option String
  tags : Option (List String)
  version : String
deriving DecidableEq

/-- nuget_api.RegistrationLeaf with the defaults of its __init__. -/
structure RegistrationLeaf where
  authors : List String
  description : String
  icon_url : String
  id : String
  license_url : String
  listed : Bool
  project_url : String
  published : String
  summary : String
  tags : List String
  version : String
deriving DecidableEq

/-- RegistrationLeaf.__init__ applied to a catalogEntry JSON. -/
def RegistrationLeaf.ofJson (json : RegLeafJson) : RegistrationLeaf :=
  { authors := json.authors.getD []
    description := json.description.getD ""
    icon_url := json.iconUrl.getD ""
    id := json.id
    license_url := json.licenseUrl.getD ""
    listed := json.listed.getD true
    project_url := json.project_url.getD ""
    published := json.published.getD ""
    summary := json.summary.getD ""
    tags := json.tags.getD []
    version := json.version }

/-- A node of the items array of a registration page document: its
catalogEntry. -/
structure RegItemNode where
  catalogEntry : RegLeafJson
deriving DecidableEq

/-- A registration page JSON node: count, the @id URL, and either inline
items or none (requiring a follow-up fetch of the @id URL). -/
structure RegPageJson where
  count : Int
  atId : String
  items : Option (List RegItemNode)
deriving DecidableEq

/-- The registration index JSON: count and the items array of page
nodes. -/
structure RegIndexJson where
  count : Int
  items : List RegPageJson
deriving DecidableEq

/-- Errors raised by the registration objects: IndexError from a [-1]
subscript on an empty list, KeyError from a missing items key after the
follow-up fetch, NoneTypeError from newest_leaf before load. -/
inductive RegErr
  | indexError
  | keyError
  | noneError
deriving DecidableEq

/-- nuget_api.RegistrationPage: count, its current JSON, and its leaves
(None until load ran). -/
structure RegistrationPage where
  count : Int
  json : RegPageJson
  leaves : Option (List RegistrationLeaf)
deriving DecidableEq

/-- RegistrationPage.__init__. -/
def RegistrationPage.init (json : RegPageJson) : RegistrationPage :=
  { count := json.count, json := json, leaves := none }

/-- RegistrationPage.load: fetch the @id URL only when the items key is
absent, then build the leaves from the items.  Returns the loaded page
and the trace of URLs fetched. -/
def RegistrationPage.load (fetch : String → RegPageJson) (p : RegistrationPage) :
    Except RegErr (RegistrationPage × List String) :=
  let fetched : RegPageJson × List String :=
    match p.json.items with
    | some _ => (p.json, [])
    | none => (fetch p.json.atId, [p.json.atId])
  match fetched.1.items with
  | none => Except.error RegErr.keyError
  | some its =>
    Except.ok
      ({ count := p.count, json := fetched.1,
         leaves := some (its.map (fun n => RegistrationLeaf.ofJson n.catalogEntry)) },
       fetched.2)

/-- RegistrationPage.newest_leaf: the [-1] subscript of the leaves list;
raises when the page is not loaded or the list is empty. -/
def RegistrationPage.newest_leaf (p : RegistrationPage) : Except RegErr RegistrationLeaf :=
  match p.leaves with
  | none => Except.error RegErr.noneError
  | some ls =>
    match ls.getLast? with
    | none => Except.error RegErr.indexError
    | some l => Except.ok l

/-- nuget_api.PackageRegistrationInfo: count and its pages. -/
structure PackageRegistrationInfo where
  count : Int
  pages : List RegistrationPage
deriving DecidableEq

/-- PackageRegistrationInfo.__init__. -/
def PackageRegistrationInfo.init (json : RegIndexJson) : PackageRegistrationInfo :=
  { count := json.count, pages := json.items.map RegistrationPage.init }

/-- PackageRegistrationInfo.load: load only the last page ([-1]); raises
IndexError when there are no pages.  Returns the updated object and the
trace of page URLs fetched. -/
def PackageRegistrationInfo.load (fetch : String → RegPageJson)
    (r : PackageRegistrationInfo) :
    Except RegErr (PackageRegistrationInfo × List String) :=
  match r.pages.getLast? with
  | none => Except.error RegErr.indexError
  | some last =>
    match last.load fetch with
    | Except.error e => Except.error e
    | Except.ok (p, trace) =>
      Except.ok ({ count := r.count, pages := r.pages.dropLast ++ [p] }, trace)

/-- PackageRegistrationInfo.newest_leaf: newest_leaf of the last page. -/
def PackageRegistrationInfo.newest_leaf (r : PackageRegistrationInfo) :
    Except RegErr RegistrationLeaf :=
  match r.pages.getLast? with
  | none => Except.error RegErr.indexError
  | some p => p.newest_leaf

/-- The registration index URL built on line 112 of nuget_api.py from the
discovered endpoint URL and the lower-cased package id. -/
def reg_index_url (endpoint_url id_ : String) : String :=
  endpoint_url ++ "/" ++ pyLower id_ ++ "/index.json"

/-- NugetRegistrationClient.load_package: build the per-id index URL,
fetch the index there, and load the resulting PackageRegistrationInfo.
Returns the requested index URL alongside the result so that the URL
actually handed to the transport is observable. -/
def NugetRegistrationClient.load_package (endpoint_url : String)
    (fetchIndex : String → RegIndexJson) (fetchPage : String → RegPageJson)
    (id_ : String) :
    String × Except RegErr (PackageRegistrationInfo × List String) :=
  let reg_url := reg_index_url endpoint_url id_
  (reg_url, (PackageRegistrationInfo.init (fetchIndex reg_url)).load fetchPage)

/-- The catalog entry JSON read by PackageCatalogInfo.__init__; keys read
with .get are Option, keys read by subscript are plain fields. -/
structure CatalogEntryJson where
  authors : Option String
  created : Option String
  description : Option String
  id : String
  isPrerelease : Option Bool
  listed : Option Bool
  summary : Option String
  tags : Option (List String)
  version : String
deriving DecidableEq

/-- nuget_api.PackageCatalogInfo with the defaults of its __init__;
authors is split on commas and each name stripped; summary keeps the
None default of .get with one argument. -/
structure PackageCatalogInfo where
  authors : List String
  created : String
  description : String
  id : String
  is_prerelease : Bool
  listed : Bool
  summary : Option String
  tags : List String
  version : String
deriving DecidableEq

/-- PackageCatalogInfo.__init__ applied to a catalog entry JSON. -/
def PackageCatalogInfo.ofJson (json : CatalogEntryJson) : PackageCatalogInfo :=
  { authors :=
      match json.authors with
      | some s => (s.splitOn ",").map String.trim
      | none => []
    created := json.created.getD ""
    description := json.description.getD ""
    id := json.id
    is_prerelease := json.isPrerelease.getD false
    listed := json.listed.getD true
    summary := json.summary
    tags := json.tags.getD []
    version := json.version }

/-- The observable state of a nuget_api.NugetPackage object: identity
from the stub plus the three component fields (None until the matching
sub-load completed) and the loaded flag. -/
structure NugetPackageState where
  id : String
  version : String
  catalog_url : String
  catalog : Option PackageCatalogInfo
  reg : Option PackageRegistrationInfo
  search : Option PackageSearchInfo
  loaded : Bool
deriving DecidableEq

/-- NugetPackage.__init__ applied to a stub node of a catalog page. -/
def NugetPackage.init (json : PackageStubNode) : NugetPackageState :=
  { id := json.nugetId, version := json.nugetVersion, catalog_url := json.atId,
    catalog := none, reg := none, search := none, loaded := false }

/-- The outcomes of the three awaited sub-fetches inside
NugetPackage.load, abstracted as oracles: the parsed catalog entry, the
loaded registration info, and the list of search hits returned for the
id query (each either a value or a raised exception). -/
structure LoadEnv where
  catalogResult : Except Exc PackageCatalogInfo
  regResult : Except Exc PackageRegistrationInfo
  searchResult : Except Exc (List PackageSearchInfo)

/-- The three sub-loads of NugetPackage.load. -/
inductive SubLoad
  | catalog
  | reg
  | search
deriving DecidableEq

/-- The two log emissions of the except branch of NugetPackage.load: the
low-severity debug line with package id and exception class name, or the
full traceback print. -/
inductive LogEvent
  | debugMissingInfo (pkgId : String) (excName : String)
  | printTraceback
deriving DecidableEq

/-- NugetPackage._load_catalog_info: sets the catalog field on success. -/
def NugetPackage.load_catalog_info (env : LoadEnv) (st : NugetPackageState) :
    Except Exc NugetPackageState :=
  match env.catalogResult with
  | Except.ok v => Except.ok { st with catalog := some v }
  | Except.error e => Except.error e

/-- NugetPackage._load_reg_info: sets the reg field on success. -/
def NugetPackage.load_reg_info (env : LoadEnv) (st : NugetPackageState) :
    Except Exc NugetPackageState :=
  match env.regResult with
  | Except.ok v => Except.ok { st with reg := some v }
  | Except.error e => Except.error e

/-- NugetPackage._load_search_info: on success sets the search field to
the first case-insensitive id match among the hits, defaulting to
NULL_SEARCH_INFO (line 203). -/
def NugetPackage.load_search_info (env : LoadEnv) (st : NugetPackageState) :
    Except Exc NugetPackageState :=
  match env.searchResult with
  | Except.ok results => Except.ok { st with search := some (findSearchInfo st.id results) }
  | Except.error e => Except.error e

/-- One guarded sub-load step of the try block of NugetPackage.load:
when the flag is set, run the sub-load (recording that it was issued);
the state at the raise point is the state before the step. -/
def loadStep (flag : Bool) (sub : SubLoad)
    (body : NugetPackageState → Except Exc NugetPackageState)
    (st : NugetPackageState) :
    Option Exc × NugetPackageState × List SubLoad :=
  if flag then
    match body st with
    | Except.ok s => (none, s, [sub])
    | Except.error e => (some e, st, [sub])
  else (none, st, [])

/-- The try block of NugetPackage.load (lines 172-181): the three guarded
sub-loads awaited one after the other, each only reached when every
earlier one finished without raising; then the loaded flag is computed
from the truthiness of the three fields.  Returns the raised exception
(if any), the resulting state, and the sub-loads issued in order. -/
def NugetPackage.loadBody (env : LoadEnv) (cat reg sea : Bool)
    (st : NugetPackageState) :
    Option Exc × NugetPackageState × List SubLoad :=
  match loadStep cat SubLoad.catalog (NugetPackage.load_catalog_info env) st with
  | (some e, s, t) => (some e, s, t)
  | (none, s1, t1) =>
    match loadStep reg SubLoad.reg (NugetPackage.load_reg_info env) s1 with
    | (some e, s, t) => (some e, s, t1 ++ t)
    | (none, s2, t2) =>
      match loadStep sea SubLoad.search (NugetPackage.load_search_info env) s2 with
      | (some e, s, t) => (some e, s, t1 ++ t2 ++ t)
      | (none, s3, t3) =>
        (none,
         { s3 with loaded := s3.catalog.isSome && s3.reg.isSome && s3.search.isSome },
         t1 ++ t2 ++ t3)

/-- The result of one NugetPackage.load invocation: the returned value or
re-raised exception, the final object state, the log emissions of the
except branch, and the sub-loads issued. -/
structure LoadOutcome where
  result : Except Exc Unit
  state : NugetPackageState
  logs : List LogEvent
  issued : List SubLoad

/-- NugetPackage.load (lines 171-190): run the try block; on an exception
classify it with can_ignore_exception to pick the log emission (the
low-severity debug line, or the full traceback) and re-raise the same
exception unchanged. -/
def NugetPackage.load (env : LoadEnv) (st : NugetPackageState)
    (cat reg sea : Bool) : LoadOutcome :=
  match NugetPackage.loadBody env cat reg sea st with
  | (none, s, t) => { result := Except.ok (), state := s, logs := [], issued := t }
  | (some e, s, t) =>
    { result := Except.error e, state := s,
      logs := [if can_ignore_exception e then LogEvent.debugMissingInfo st.id (excName e)
               else LogEvent.printTraceback],
      issued := t }

/-- A minimal catalogEntry JSON used in concrete instances. -/
def sampleLeafJson : RegLeafJson :=
  { authors := none, description := none, iconUrl := none, id := "Foo.Bar",
    licenseUrl := none, listed := none, project_url := none, published := none,
    summary := none, tags := none, version := "1.0.0" }

/-- A registration page node with one inline leaf. -/
def samplePageInline : RegPageJson :=
  { count := 1, atId := "https://reg/foo.bar/page1.json",
    items := some [{ catalogEntry := sampleLeafJson }] }

/-- A registration page node carrying only its URL (no inline items). -/
def samplePageRemote : RegPageJson :=
  { count := 1, atId := "https://reg/foo.bar/page2.json", items := none }

/-- The page body served at the remote page URL. -/
def samplePageBody : RegPageJson :=
  { count := 1, atId := "https://reg/foo.bar/page2.json",
    items := some [{ catalogEntry := sampleLeafJson }] }

/-- A registration index with two pages, the last one remote. -/
def sampleIndexJson : RegIndexJson :=
  { count := 2, items := [samplePageInline, samplePageRemote] }

/-- A loaded registration info with one loaded page and one leaf. -/
def sampleRegInfo : PackageRegistrationInfo :=
  { count := 1,
    pages := [{ count := 1, json := samplePageBody,
                leaves := some [RegistrationLeaf.ofJson sampleLeafJson] }] }

/-- A parsed catalog entry used in concrete instances. -/
def sampleCatalogInfo : PackageCatalogInfo :=
  PackageCatalogInfo.ofJson
    { authors := some "Alice, Bob", created := some "2023-01-01T00:00:00Z",
      description := none, id := "Foo.Bar", isPrerelease := none,
      listed := none, summary := none, tags := none, version := "1.0.0" }

/-- A search hit used in concrete instances. -/
def sampleHit : PackageSearchInfo :=
  { id := "Foo.Bar", total_downloads := 100, verified := true }

/-- A fresh package state as built from a stub node. -/
def samplePackage : NugetPackageState :=
  NugetPackage.init { nugetId := "Foo.Bar", nugetVersion := "1.0.0",
                      atId := "https://catalog/data/x/foo.bar.json" }

/-- An environment where all three sub-fetches succeed. -/
def envAllOk : LoadEnv :=
  { catalogResult := Except.ok sampleCatalogInfo,
    regResult := Except.ok sampleRegInfo,
    searchResult := Except.ok [sampleHit] }

/-- An environment where the catalog entry fetch raises an HTTP 404
response error. -/
def env404 : LoadEnv :=
  { catalogResult := Except.error (Exc.clientResponseError 404),
    regResult := Except.ok sampleRegInfo,
    searchResult := Except.ok [sampleHit] }

/-- An environment where the registration fetch raises an error outside
the client-error classes. -/
def envRegFails : LoadEnv :=
  { catalogResult := Except.ok sampleCatalogInfo,
    regResult := Except.error Exc.otherError,
    searchResult := Except.ok [sampleHit] }

/-- Claim C6: ok_filter returns true exactly on cancellations, timeouts,
and HTTP response errors with status at least 500; can_ignore_exception
returns true exactly on retryable failures and client errors; every 4xx
response error and every malformed-body error is not retryable. -/
theorem c6_failure_classification :
    (∀ e : Exc, ok_filter e = true ↔ retryablePerSpec e) ∧
    (∀ e : Exc, can_ignore_exception e = true ↔ ignorablePerSpec e) ∧
    (∀ c : Nat, c < 500 → ok_filter (Exc.clientResponseError c) = false) ∧
    ok_filter Exc.otherError = false := by
  have h1 : ∀ e : Exc, ok_filter e = true ↔ retryablePerSpec e := by
    intro e
    cases e <;>
      simp [ok_filter, retryablePerSpec, isCancelledOrTimeout,
        isClientResponseError, excCode]
  refine ⟨h1, ?_, ?_, rfl⟩
  · intro e
    rw [can_ignore_exception]
    constructor
    · intro h
      rcases Bool.or_eq_true_iff.mp h with h | h
      · exact Or.inl ((h1 e).mp h)
      · exact Or.inr h
    · intro h
      rcases h with h | h
      · exact Bool.or_eq_true_iff.mpr (Or.inl ((h1 e).mpr h))
      · exact Bool.or_eq_true_iff.mpr (Or.inr h)
  · intro c hc
    simp [ok_filter, isCancelledOrTimeout, isClientResponseError, excCode]
    omega

/-- Witness for c6_failure_classification at status 404. -/
theorem c6_failure_classification_witness :
    404 < 500 ∧ ok_filter (Exc.clientResponseError 404) = false :=
  ⟨by decide, c6_failure_classification.2.2.1 404 (by decide)⟩

/-- Claim C7: get_endpoint_url maps each of the three recognized names to
its hard-coded root index URL, and rejects every other name with the
invalid-endpoint error; the function is pure, so no network request is
involved in either case. -/
theorem c7_endpoint_resolution :
    get_endpoint_url DEV = Except.ok DEV_INDEX ∧
    get_endpoint_url INT = Except.ok INT_INDEX ∧
    get_endpoint_url PROD = Except.ok PROD_INDEX ∧
    ∀ e, e ∉ VALID_ENDPOINTS →
      get_endpoint_url e = Except.error (EndpointError.invalidEndpoint e) := by
  refine ⟨?_, ?_, ?_, ?_⟩
  · simp [get_endpoint_url, check_endpoint, VALID_ENDPOINTS, DEV, INT, PROD]
  · simp [get_endpoint_url, check_endpoint, VALID_ENDPOINTS, DEV, INT, PROD]
  · simp [get_endpoint_url, check_endpoint, VALID_ENDPOINTS, DEV, INT, PROD]
  · intro e he
    simp only [get_endpoint_url, check_endpoint, if_neg he]

/-- Witness for c7_endpoint_resolution at the unknown name STAGING. -/
theorem c7_endpoint_resolution_witness :
    "STAGING" ∉ VALID_ENDPOINTS ∧
    get_endpoint_url "STAGING" =
      Except.error (EndpointError.invalidEndpoint "STAGING") :=
  ⟨by decide, c7_endpoint_resolution.2.2.2 "STAGING" (by decide)⟩

/-- Claim C5: the search lookup matches by case-insensitive id comparison
(the hit Foo.Bar is found for the package id foo.bar); when no hit
matches case-insensitively it yields the NULL_SEARCH_INFO sentinel, whose
fields are the empty id, total_downloads -1 and verified false; the
lookup is a total function, so it never raises. -/
theorem c5_search_lookup (pkgId : String) (results : List PackageSearchInfo) :
    ((∀ d ∈ results, pyLower d.id ≠ pyLower pkgId) →
      findSearchInfo pkgId results = NULL_SEARCH_INFO) ∧
    (∀ hit ∈ results, pyLower hit.id = pyLower pkgId →
      pyLower (findSearchInfo pkgId results).id = pyLower pkgId) ∧
    findSearchInfo "foo.bar"
        [{ id := "Foo.Bar", total_downloads := 100, verified := true }] =
      { id := "Foo.Bar", total_downloads := 100, verified := true } ∧
    NULL_SEARCH_INFO.id = "" ∧ NULL_SEARCH_INFO.total_downloads = -1 ∧
    NULL_SEARCH_INFO.verified = false := by
  refine ⟨?_, ?_, by decide, rfl, rfl, rfl⟩
  · intro h
    have hnone : results.find? (fun d => pyLower d.id == pyLower pkgId) = none := by
      rw [List.find?_eq_none]
      intro x hx
      simpa using h x hx
    simp [findSearchInfo, hnone]
  · intro hit hmem heq
    have hsome : (results.find? (fun d => pyLower d.id == pyLower pkgId)).isSome := by
      rw [List.find?_isSome]
      exact ⟨hit, hmem, by simpa using heq⟩
    obtain ⟨d, hd⟩ := Option.isSome_iff_exists.mp hsome
    have hp := List.find?_some hd
    simp only [findSearchInfo, hd]
    simpa using hp

/-- Witness for c5_search_lookup: a result set with no case-insensitive
match yields the sentinel, and a matching hit is found. -/
theorem c5_search_lookup_witness :
    findSearchInfo "absent.pkg"
        [{ id := "Foo.Bar", total_downloads := 100, verified := true }] =
      NULL_SEARCH_INFO :=
  (c5_search_lookup "absent.pkg"
      [{ id := "Foo.Bar", total_downloads := 100, verified := true }]).1
    (by decide)

/-- Claim C10: loading a registration index with zero pages fails with
the IndexError ([-1] on an empty list) instead of returning a result; on
a loaded page with zero leaves, newest_leaf fails with the IndexError,
both on the page itself and through PackageRegistrationInfo. -/
theorem c10_registration_empty_errors (fetch : String → RegPageJson)
    (json : RegIndexJson) (p : RegistrationPage) (r : PackageRegistrationInfo) :
    (json.items = [] →
      (PackageRegistrationInfo.init json).load fetch =
        Except.error RegErr.indexError) ∧
    (p.leaves = some [] →
      p.newest_leaf = Except.error RegErr.indexError) ∧
    (r.pages.getLast? = some p → p.leaves = some [] →
      r.newest_leaf = Except.error RegErr.indexError) := by
  refine ⟨?_, ?_, ?_⟩
  · intro h
    simp [PackageRegistrationInfo.init, PackageRegistrationInfo.load, h]
  · intro h
    simp [RegistrationPage.newest_leaf, h]
  · intro hlast h
    simp [PackageRegistrationInfo.newest_leaf, hlast, RegistrationPage.newest_leaf, h]

/-- Witness for c10_registration_empty_errors: an index document with an
empty items array, and a loaded page with an empty leaf list. -/
theorem c10_registration_empty_errors_witness :
    ({ count := 0, items := [] } : RegIndexJson).items = [] ∧
    (PackageRegistrationInfo.init { count := 0, items := [] }).load
        (fun _ => { count := 0, atId := "", items := none }) =
      Except.error RegErr.indexError ∧
    ({ count := 0, json := { count := 0, atId := "u", items := some [] },
       leaves := some [] } : RegistrationPage).newest_leaf =
      Except.error RegErr.indexError :=
  ⟨rfl,
   (c10_registration_empty_errors (fun _ => { count := 0, atId := "", items := none })
       { count := 0, items := [] }
       { count := 0, json := { count := 0, atId := "u", items := some [] },
         leaves := some [] }
       { count := 0, pages := [] }).1 rfl,
   (c10_registration_empty_errors (fun _ => { count := 0, atId := "", items := none })
       { count := 0, items := [] }
       { count := 0, json := { count := 0, atId := "u", items := some [] },
         leaves := some [] }
       { count := 0, pages := [] }).2.1 rfl⟩

/-- Claim C4: load_package requests the registration index at the URL
built from the lower-cased id; loading resolves only the last page of
the index, requesting that page URL exactly when its JSON lacks inline
items and requesting no other page URL; newest_leaf of the returned
object is the last leaf of the last page. -/
theorem c4_registration_version_resolution (endpoint_url id_ : String)
    (fetchIndex : String → RegIndexJson) (fetchPage : String → RegPageJson)
    (rest : List RegPageJson) (lastPage : RegPageJson)
    (hitems : (fetchIndex (reg_index_url endpoint_url id_)).items = rest ++ [lastPage])
    (its : List RegItemNode)
    (hits : (match lastPage.items with
             | some xs => some xs
             | none => (fetchPage lastPage.atId).items) = some its)
    (leaf : RegItemNode) (hleaf : its.getLast? = some leaf) :
    (NugetRegistrationClient.load_package endpoint_url fetchIndex fetchPage id_).1 =
      endpoint_url ++ "/" ++ pyLower id_ ++ "/index.json" ∧
    ∃ info,
      (NugetRegistrationClient.load_package endpoint_url fetchIndex fetchPage id_).2 =
        Except.ok (info,
          match lastPage.items with
          | some _ => []
          | none => [lastPage.atId]) ∧
      info.newest_leaf = Except.ok (RegistrationLeaf.ofJson leaf.catalogEntry) := by
  refine ⟨rfl, ?_⟩
  cases hcase : lastPage.items with
  | some xs =>
    have hxs : xs = its := by
      simp only [hcase] at hits
      exact Option.some.inj hits
    subst hxs
    refine ⟨{ count := (fetchIndex (reg_index_url endpoint_url id_)).count,
              pages := rest.map RegistrationPage.init ++
                [{ count := lastPage.count, json := lastPage,
                   leaves := some (xs.map
                     (fun n => RegistrationLeaf.ofJson n.catalogEntry)) }] },
            ?_, ?_⟩
    · simp [NugetRegistrationClient.load_package, PackageRegistrationInfo.load,
        PackageRegistrationInfo.init, hitems, RegistrationPage.load,
        RegistrationPage.init, hcase, List.getLast?_concat, List.dropLast_concat]
    · simp [PackageRegistrationInfo.newest_leaf, List.getLast?_concat,
        RegistrationPage.newest_leaf, List.getLast?_map, hleaf]
  | none =>
    have heff : (fetchPage lastPage.atId).items = some its := by
      simpa only [hcase] using hits
    refine ⟨{ count := (fetchIndex (reg_index_url endpoint_url id_)).count,
              pages := rest.map RegistrationPage.init ++
                [{ count := lastPage.count, json := fetchPage lastPage.atId,
                   leaves := some (its.map
                     (fun n => RegistrationLeaf.ofJson n.catalogEntry)) }] },
            ?_, ?_⟩
    · simp [NugetRegistrationClient.load_package, PackageRegistrationInfo.load,
        PackageRegistrationInfo.init, hitems, RegistrationPage.load,
        RegistrationPage.init, hcase, heff, List.getLast?_concat, List.dropLast_concat]
    · simp [PackageRegistrationInfo.newest_leaf, List.getLast?_concat,
        RegistrationPage.newest_leaf, List.getLast?_map, hleaf]

/-- Witness for c4_registration_version_resolution: a two-page index
whose last page is remote; only the last page URL is requested and the
newest leaf is its single leaf. -/
theorem c4_registration_version_resolution_witness :
    ∃ info,
      (NugetRegistrationClient.load_package "https://reg"
          (fun _ => sampleIndexJson) (fun _ => samplePageBody) "Foo.Bar").2 =
        Except.ok (info, ["https://reg/foo.bar/page2.json"]) ∧
      info.newest_leaf = Except.ok (RegistrationLeaf.ofJson sampleLeafJson) :=
  (c4_registration_version_resolution "https://reg" "Foo.Bar"
      (fun _ => sampleIndexJson) (fun _ => samplePageBody)
      [samplePageInline] samplePageRemote rfl
      [{ catalogEntry := sampleLeafJson }] rfl
      { catalogEntry := sampleLeafJson } rfl).2

/-- The trace of the load_pages generator equals the first k page URLs,
for any number k of consumed elements, provided every URL parses. -/
theorem load_pages_from_trace_eq (fetch : String → CatalogPageJson) :
    ∀ (urls : List String) (k : Nat),
      (∀ u ∈ urls, (parse_pageno u).isSome = true) →
      (load_pages_from fetch urls k).2 = urls.take k := by
  intro urls
  induction urls with
  | nil =>
    intro k h
    cases k <;> simp [load_pages_from]
  | cons u rest ih =>
    intro k h
    cases k with
    | zero => simp [load_pages_from]
    | succ n =>
      obtain ⟨pn, hpn⟩ := Option.isSome_iff_exists.mp (h u (by simp))
      have hrest : ∀ v ∈ rest, (parse_pageno v).isSome = true :=
        fun v hv => h v (by simp [hv])
      simp [load_pages_from, hpn, ih n hrest]

/-- Consuming at least as many elements as there are page URLs yields
every page, in URL order, each holding the fetch of its own URL. -/
theorem load_pages_from_complete (fetch : String → CatalogPageJson) :
    ∀ (urls : List String) (k : Nat),
      (∀ u ∈ urls, (parse_pageno u).isSome = true) →
      urls.length ≤ k →
      ∃ ps, (load_pages_from fetch urls k).1 = Except.ok ps ∧
        ps.map (fun p => p.url) = urls ∧
        ∀ p ∈ ps, p.json = some (fetch p.url) := by
  intro urls
  induction urls with
  | nil =>
    intro k h hk
    refine ⟨[], ?_, rfl, by simp⟩
    cases k <;> simp [load_pages_from]
  | cons u rest ih =>
    intro k h hk
    cases k with
    | zero => simp at hk
    | succ n =>
      obtain ⟨pn, hpn⟩ := Option.isSome_iff_exists.mp (h u (by simp))
      have hrest : ∀ v ∈ rest, (parse_pageno v).isSome = true :=
        fun v hv => h v (by simp [hv])
      have hn : rest.length ≤ n := by simpa using hk
      obtain ⟨ps, hps, hurls, hjson⟩ := ih n hrest hn
      refine ⟨{ pageno := pn, url := u, json := some (fetch u) } :: ps, ?_, ?_, ?_⟩
      · simp [load_pages_from, hpn, hps]
      · simp [hurls]
      · intro p hp
        rcases List.mem_cons.mp hp with h1 | h1
        · subst h1; rfl
        · exact hjson p h1

/-- Claim C3: iterating the load_pages sequence fetches exactly the page
URLs of the root document, in their listed order, each exactly once, and
strictly one at a time: after k elements are consumed the trace of
fetched URLs is exactly the first k page URLs, so the fetch of a page
does not begin before every earlier page has been fetched and yielded;
consuming the whole sequence yields the pages in order, each loaded from
its own URL. -/
theorem c3_catalog_sequential_pages (fetch : String → CatalogPageJson)
    (root : CatalogRootJson)
    (h : ∀ u ∈ page_urls root, (parse_pageno u).isSome = true) :
    (∀ k, (NugetCatalogClient.load_pages fetch root k).2 = (page_urls root).take k) ∧
    (NugetCatalogClient.load_pages fetch root (page_urls root).length).2 =
      page_urls root ∧
    ∃ ps,
      (NugetCatalogClient.load_pages fetch root (page_urls root).length).1 =
        Except.ok ps ∧
      ps.map (fun p => p.url) = page_urls root ∧
      ∀ p ∈ ps, p.json = some (fetch p.url) := by
  refine ⟨fun k => load_pages_from_trace_eq fetch _ k h, ?_, ?_⟩
  · rw [NugetCatalogClient.load_pages, load_pages_from_trace_eq fetch _ _ h]
    exact List.take_length (page_urls root)
  · exact load_pages_from_complete fetch _ _ h (Nat.le_refl _)

/-- Witness for c3_catalog_sequential_pages: a root document with two
page URLs; consuming one element fetches only the first URL, consuming
both fetches both in order. -/
theorem c3_catalog_sequential_pages_witness :
    (NugetCatalogClient.load_pages
        (fun _ => { items := [] })
        { items := [{ atId := "https://cat/page0.json" },
                    { atId := "https://cat/page1.json" }] } 1).2 =
      ["https://cat/page0.json"] :=
  (c3_catalog_sequential_pages (fun _ => { items := [] })
      { items := [{ atId := "https://cat/page0.json" },
                  { atId := "https://cat/page1.json" }] }
      (by decide)).1 1

/-- Counterexample to claim C1 as stated: with search omitted by flag and
both requested sub-loads succeeding, load returns successfully but the
loaded field is false, because line 180 requires all three fields to be
set regardless of the flags. -/
theorem c1_loaded_flags_counterexample :
    (NugetPackage.load envAllOk samplePackage true true false).result =
      Except.ok () ∧
    (NugetPackage.load envAllOk samplePackage true true false).state.loaded =
      false :=
  ⟨rfl, rfl⟩

/-- Claim C1 amended: on a fresh package state, when every flag-enabled
sub-load succeeds, load returns successfully and the loaded field is true
iff all three flags were enabled (a sub-load omitted by flag leaves its
field unset and so counts against loaded). -/
theorem c1_loaded_iff_all_fields (env : LoadEnv) (st : NugetPackageState)
    (cat reg sea : Bool)
    (hcat : st.catalog = none) (hreg : st.reg = none) (hsea : st.search = none)
    (h1 : cat = true → env.catalogResult.isOk = true)
    (h2 : reg = true → env.regResult.isOk = true)
    (h3 : sea = true → env.searchResult.isOk = true) :
    (NugetPackage.load env st cat reg sea).result = Except.ok () ∧
    (NugetPackage.load env st cat reg sea).state.loaded = (cat && reg && sea) := by
  rcases hce : env.catalogResult with e | vc <;>
    rcases hre : env.regResult with e2 | vr <;>
    rcases hse : env.searchResult with e3 | vs <;>
    cases cat <;> cases reg <;> cases sea <;>
    simp_all [NugetPackage.load, NugetPackage.loadBody, loadStep,
      NugetPackage.load_catalog_info, NugetPackage.load_reg_info,
      NugetPackage.load_search_info, Except.isOk, Except.toBool]

/-- Witness for c1_loaded_iff_all_fields: all three flags on, fresh
state, all sub-loads succeed. -/
theorem c1_loaded_iff_all_fields_witness :
    (NugetPackage.load envAllOk samplePackage true true true).result =
      Except.ok () ∧
    (NugetPackage.load envAllOk samplePackage true true true).state.loaded =
      (true && true && true) :=
  c1_loaded_iff_all_fields envAllOk samplePackage true true true rfl rfl rfl
    (fun _ => rfl) (fun _ => rfl) (fun _ => rfl)

/-- Counterexample to claim C2 as stated: a 404 ClientResponseError is a
ClientError by subclassing, so can_ignore_exception classifies it as
ignorable and the Aggregator emits the low-severity debug line, not the
full diagnostic trace. -/
theorem c2_branch_counterexample :
    can_ignore_exception (Exc.clientResponseError 404) = true ∧
    (NugetPackage.load env404 samplePackage true true true).logs =
      [LogEvent.debugMissingInfo "Foo.Bar" "ClientResponseError"] ∧
    LogEvent.debugMissingInfo "Foo.Bar" "ClientResponseError" ≠
      LogEvent.printTraceback :=
  ⟨rfl, rfl, by decide⟩

/-- Claim C2 amended: a sub-load failing with an HTTP 4xx response error
is not classified as retryable by ok_filter, but it is a client error, so
can_ignore_exception holds and the Aggregator emits the low-severity
debug line (package id and exception class name) rather than the full
diagnostic trace, and re-raises the original exception unchanged. -/
theorem c2_4xx_not_retryable_but_ignorable (c : Nat) (h4 : 400 ≤ c) (h5 : c < 500)
    (env : LoadEnv) (st : NugetPackageState)
    (hc : env.catalogResult = Except.error (Exc.clientResponseError c)) :
    ok_filter (Exc.clientResponseError c) = false ∧
    can_ignore_exception (Exc.clientResponseError c) = true ∧
    (NugetPackage.load env st true true true).result =
      Except.error (Exc.clientResponseError c) ∧
    (NugetPackage.load env st true true true).logs =
      [LogEvent.debugMissingInfo st.id "ClientResponseError"] := by
  have hok : ok_filter (Exc.clientResponseError c) = false := by
    simp [ok_filter, isCancelledOrTimeout, isClientResponseError, excCode]
    omega
  have hign : can_ignore_exception (Exc.clientResponseError c) = true := by
    simp [can_ignore_exception, isClientError]
  refine ⟨hok, hign, ?_, ?_⟩ <;>
    simp [NugetPackage.load, NugetPackage.loadBody, loadStep,
      NugetPackage.load_catalog_info, hc, hign, excName]

/-- Witness for c2_4xx_not_retryable_but_ignorable at status 404. -/
theorem c2_4xx_not_retryable_but_ignorable_witness :
    400 ≤ 404 ∧ 404 < 500 ∧
    env404.catalogResult = Except.error (Exc.clientResponseError 404) ∧
    (NugetPackage.load env404 samplePackage true true true).logs =
      [LogEvent.debugMissingInfo samplePackage.id "ClientResponseError"] :=
  ⟨by decide, by decide, rfl,
   (c2_4xx_not_retryable_but_ignorable 404 (by decide) (by decide) env404
       samplePackage rfl).2.2.2⟩

/-- Counterexample to claim C8 as stated: the three sub-loads are not
issued concurrently; when the catalog sub-load raises, the registration
sub-load (enabled by its flag) is never issued at all. -/
theorem c8_concurrent_counterexample :
    (NugetPackage.load env404 samplePackage true true true).issued =
      [SubLoad.catalog] ∧
    SubLoad.reg ∉ (NugetPackage.load env404 samplePackage true true true).issued :=
  ⟨rfl, by decide⟩

/-- Claim C8 amended: the sub-loads enabled by the flags are issued
strictly sequentially in the fixed order catalog, registration, search
(the issued list is a sublist of that order), and an enabled sub-load is
issued exactly when every earlier enabled sub-load succeeded. -/
theorem c8_sequential_subloads (env : LoadEnv) (st : NugetPackageState)
    (cat reg sea : Bool) :
    (NugetPackage.load env st cat reg sea).issued.Sublist
      [SubLoad.catalog, SubLoad.reg, SubLoad.search] ∧
    (SubLoad.catalog ∈ (NugetPackage.load env st cat reg sea).issued ↔
      cat = true) ∧
    (SubLoad.reg ∈ (NugetPackage.load env st cat reg sea).issued ↔
      reg = true ∧ (cat = true → env.catalogResult.isOk = true)) ∧
    (SubLoad.search ∈ (NugetPackage.load env st cat reg sea).issued ↔
      sea = true ∧ (cat = true → env.catalogResult.isOk = true) ∧
        (reg = true → env.regResult.isOk = true)) := by
  rcases hce : env.catalogResult with e | vc <;>
    rcases hre : env.regResult with e2 | vr <;>
    rcases hse : env.searchResult with e3 | vs <;>
    cases cat <;> cases reg <;> cases sea <;>
    simp_all [NugetPackage.load, NugetPackage.loadBody, loadStep,
      NugetPackage.load_catalog_info, NugetPackage.load_reg_info,
      NugetPackage.load_search_info, Except.isOk, Except.toBool]

/-- Witness for c8_sequential_subloads: with the registration sub-load
failing, the search sub-load is never issued. -/
theorem c8_sequential_subloads_witness :
    SubLoad.search ∉
      (NugetPackage.load envRegFails samplePackage true true true).issued := by
  intro hmem
  have h :=
    (c8_sequential_subloads envRegFails samplePackage true true true).2.2.2.mp hmem
  have hko : envRegFails.regResult.isOk = true := h.2.2 rfl
  simp [envRegFails, Except.isOk, Except.toBool] at hko

/-- Counterexample to claim C9 as stated: when the registration sub-load
raises after the catalog sub-load completed, load re-raises but the
catalog field set by the earlier sub-load remains set, so the state is
left partially mutated. -/
theorem c9_no_partial_mutation_counterexample :
    (NugetPackage.load envRegFails samplePackage true true true).result =
      Except.error Exc.otherError ∧
    (NugetPackage.load envRegFails samplePackage true true true).state.catalog =
      some sampleCatalogInfo :=
  ⟨rfl, rfl⟩

/-- Claim C9 amended: when a sub-fetch raises, load re-raises the same
exception, but component fields set by sub-loads that completed earlier
in the same invocation remain set (the state is observably partially
mutated); the loaded field is left unchanged, so it stays false on a
fresh instance. -/
theorem c9_partial_state_on_failure (env : LoadEnv) (st : NugetPackageState)
    (v : PackageCatalogInfo) (e : Exc)
    (hc : env.catalogResult = Except.ok v)
    (hr : env.regResult = Except.error e) :
    (NugetPackage.load env st true true true).result = Except.error e ∧
    (NugetPackage.load env st true true true).state.catalog = some v ∧
    (NugetPackage.load env st true true true).state.loaded = st.loaded := by
  refine ⟨?_, ?_, ?_⟩ <;>
    simp [NugetPackage.load, NugetPackage.loadBody, loadStep,
      NugetPackage.load_catalog_info, NugetPackage.load_reg_info, hc, hr]

/-- Witness for c9_partial_state_on_failure: the registration sub-load
fails after the catalog sub-load succeeded on a fresh state. -/
theorem c9_partial_state_on_failure_witness :
    envRegFails.catalogResult = Except.ok sampleCatalogInfo ∧
    (NugetPackage.load envRegFails samplePackage true true true).state.loaded =
      false :=
  ⟨rfl, by
    have h := (c9_partial_state_on_failure envRegFails samplePackage
        sampleCatalogInfo Exc.otherError rfl rfl).2.2
    simpa [samplePackage, NugetPackage.init] using h⟩
